/- Verification development for the conversational-assistant repository:
   a shallow embedding of the orchestration, reference-resolution and
   parsing layers (src/app/agents/*.py), with theorems checking the
   natural-language specification against it. -/
import Mathlib

namespace AgentSpec

/-! ## Generic string helpers (model Python `str` operations) -/

/-- Model of Python substring containment: `listPrefixEq sub l` is true
when `sub` is a prefix of `l` (character-wise equality). -/
def listPrefixEq : List Char → List Char → Bool
  | [], _ => true
  | _ :: _, [] => false
  | a :: as, b :: bs => a == b && listPrefixEq as bs

/-- `listContains l sub` is true when `sub` occurs contiguously inside `l`
(model of Python `sub in l` for strings). -/
def listContains (l sub : List Char) : Bool :=
  listPrefixEq sub l ||
    match l with
    | [] => false
    | _ :: t => listContains t sub

/-- Python `sub in hay` on strings. -/
def strContains (hay sub : String) : Bool :=
  listContains hay.toList sub.toList

/-- Python `str.lower()` (ASCII case folding; the inputs exercised by the
claims are already lower-case outside ASCII). -/
def strLower (s : String) : String :=
  String.mk (s.toList.map Char.toLower)

/-! ## SharedContext conversation history (orchestrator_agent.py lines 11-41) -/

/-- `MAX_HISTORY_LENGTH` from orchestrator_agent.py line 11. -/
def MAX_HISTORY_LENGTH : Nat := 20

/-- One entry of `SharedContext.conversation_history`: a role/content dict,
with the optional `agent_type` tag present on assistant entries. -/
structure HistoryMessage where
  role : String
  content : String
  agent_type : Option String
deriving DecidableEq

/-- `SharedContext._trim_history`: keep only the last `MAX_HISTORY_LENGTH`
messages (Python `history[-MAX_HISTORY_LENGTH:]`). -/
def trimHistory (h : List HistoryMessage) : List HistoryMessage :=
  if h.length > MAX_HISTORY_LENGTH then h.drop (h.length - MAX_HISTORY_LENGTH) else h

/-- A history mutation: `add_user_message` or `add_assistant_message`. -/
inductive HistOp where
  | user (content : String)
  | assistant (content : String) (agent : String)
deriving DecidableEq

/-- The message appended by a history operation. -/
def histOpMsg : HistOp → HistoryMessage
  | HistOp.user c => { role := "user", content := c, agent_type := none }
  | HistOp.assistant c a => { role := "assistant", content := c, agent_type := some a }

/-- `add_user_message` / `add_assistant_message`: append, then trim. -/
def applyHistOp (h : List HistoryMessage) (op : HistOp) : List HistoryMessage :=
  trimHistory (h ++ [histOpMsg op])

/-- Run a sequence of history mutations in order. -/
def runHistOps (h : List HistoryMessage) (ops : List HistOp) : List HistoryMessage :=
  ops.foldl applyHistOp h

/-! ## Orchestrator routing (orchestrator_agent.py lines 180-302) -/

/-- `OrchestratorAgent.determine_agent_with_context`, with the classifier
output supplied as an oracle value (the classifier is an external LLM
collaborator).  Mirrors lines 180-212: with an active agent, switch only on
a definite differing classification; with none, default `"unsure"` to
`"jira"`. -/
def determineAgentWithContext (active : Option String) (classification : String) : String :=
  match active with
  | some a =>
    if classification != "unsure" && classification != a then classification else a
  | none =>
    if classification == "unsure" then "jira" else classification

/-- The dispatch target chosen by `process_message_sync` before any task
agent is invoked (orchestrator_agent.py lines 221-302). -/
inductive Route where
  | cleanup
  | jiraAgent
  | confluenceAgent
  | incidentInit
  | incidentContinue
  | unknown
deriving DecidableEq

/-- The routing decision of `OrchestratorAgent.process_message_sync`
(lines 221-302): the cleanup sentinel short-circuits; otherwise the
(sticky) classification picks the branch, and the `"incident"` branch
splits on whether `metadata["incident_flow"]["active"]` is set.  Note that
`determine_agent_with_context` (hence the classifier) runs on every
non-cleanup message, before `incidentActive` is ever consulted. -/
def routeMessage (message : String) (active : Option String) (incidentActive : Bool)
    (classification : String) : Route :=
  if message == "$__cleanup_signal__" then Route.cleanup
  else
    let initial := determineAgentWithContext active classification
    if initial == "jira" then Route.jiraAgent
    else if initial == "confluence" then Route.confluenceAgent
    else if initial == "incident" then
      if incidentActive then Route.incidentContinue else Route.incidentInit
    else Route.unknown

/-! ## Task-agent invocation with one-hop reflection
(orchestrator_agent.py lines 12, 304-367) -/

/-- `AGENT_CANNOT_HANDLE_SIGNAL` (orchestrator_agent.py line 12). -/
def CANNOT_HANDLE_SIGNAL : String := "$AGENT_CANNOT_HANDLE"

/-- Outcome of one `process_message_sync` call of a task agent: a returned
response string, or a raised exception (with its message). -/
inductive AgentOutcome where
  | ok (response : String)
  | raised (e : String)
deriving DecidableEq

/-- An external task agent, abstracted as a message -> outcome oracle (the
shared history/metadata it also receives do not matter for the claims). -/
def AgentOracle : Type := String → AgentOutcome

/-- The alternative agent chosen for reflection (orchestrator_agent.py
lines 317-323): jira <-> confluence, nothing otherwise. -/
def alternativeAgentName (initial : String) : Option String :=
  if initial == "jira" then some "confluence"
  else if initial == "confluence" then some "jira"
  else none

/-- Result of `process_message_sync` on the jira/confluence branch:
the returned response, the `active_agent` recorded in shared state, and
the instrumented lists of messages each task agent oracle was invoked
with (in call order). -/
structure TaskTurnResult where
  response : String
  activeAgent : String
  jiraCalls : List String
  confluenceCalls : List String
deriving DecidableEq

/-- `OrchestratorAgent.process_message_sync`, jira/confluence branch
(orchestrator_agent.py lines 304-367): first attempt with the initially
determined agent; on `CANNOT_HANDLE_SIGNAL`, one retry of the same message
with the alternative agent; exception handling as in the source (outer
`except` for the first attempt, inner `except` for the retry). -/
def processTaskAgentTurn (jiraOracle confluenceOracle : AgentOracle)
    (initialAgentName : String) (message : String) : TaskTurnResult :=
  let firstOutcome :=
    if initialAgentName == "jira" then jiraOracle message else confluenceOracle message
  let firstJiraCalls := if initialAgentName == "jira" then [message] else []
  let firstConfluenceCalls := if initialAgentName == "jira" then [] else [message]
  match firstOutcome with
  | AgentOutcome.raised _ =>
    -- lines 360-367: generic apology, active agent kept as the initial one
    { response := "Lo siento, ocurrió un error inesperado al procesar tu solicitud con "
        ++ initialAgentName ++ "."
      activeAgent := initialAgentName
      jiraCalls := firstJiraCalls, confluenceCalls := firstConfluenceCalls }
  | AgentOutcome.ok response =>
    if response == CANNOT_HANDLE_SIGNAL then
      match alternativeAgentName initialAgentName with
      | none =>
        -- lines 345-347
        { response := "Lo siento, el agente inicial (" ++ initialAgentName
            ++ ") no pudo procesar la solicitud y no hay un alternativo claro."
          activeAgent := initialAgentName
          jiraCalls := firstJiraCalls, confluenceCalls := firstConfluenceCalls }
      | some altName =>
        let altOutcome := if altName == "jira" then jiraOracle message else confluenceOracle message
        let jiraCalls := firstJiraCalls ++ (if altName == "jira" then [message] else [])
        let confluenceCalls := firstConfluenceCalls ++ (if altName == "jira" then [] else [message])
        match altOutcome with
        | AgentOutcome.raised _ =>
          -- lines 342-344: apology naming only the alternative agent
          { response := "Lo siento, ocurrió un error al intentar procesar tu solicitud con el agente alternativo ("
              ++ altName ++ ")."
            activeAgent := initialAgentName
            jiraCalls := jiraCalls, confluenceCalls := confluenceCalls }
        | AgentOutcome.ok altResponse =>
          if altResponse == CANNOT_HANDLE_SIGNAL then
            -- lines 334-336: apology naming both domains
            { response := "Lo siento, parece que ni Jira ni Confluence pueden manejar esta solicitud específica."
              activeAgent := initialAgentName
              jiraCalls := jiraCalls, confluenceCalls := confluenceCalls }
          else
            -- lines 337-340: alternative succeeded
            { response := altResponse
              activeAgent := altName
              jiraCalls := jiraCalls, confluenceCalls := confluenceCalls }
    else
      { response := response
        activeAgent := initialAgentName
        jiraCalls := firstJiraCalls, confluenceCalls := firstConfluenceCalls }

/-! ## Incident-flow state machine
(orchestrator_agent.py lines 243-255 and 369-725; template from
incident_template_agent.py lines 7-27) -/

/-- A value stored in `incident_flow["collected_data"]`: the flow stores
strings for text/choice/date slots and lists of strings for list slots. -/
inductive FieldValue where
  | str (s : String)
  | list (items : List String)
deriving DecidableEq

/-- Python dict assignment `d[k] = v` on an insertion-ordered dict
modelled as an association list: replace in place or append. -/
def dictSet : List (String × FieldValue) → String → FieldValue → List (String × FieldValue)
  | [], k, v => [(k, v)]
  | (k', v') :: rest, k, v =>
    if k' == k then (k, v) :: rest else (k', v') :: dictSet rest k v

/-- Python dict lookup `d.get(k)`. -/
def dictGet : List (String × FieldValue) → String → Option FieldValue
  | [], _ => none
  | (k', v') :: rest, k => if k' == k then some v' else dictGet rest k

/-- One entry of `TEMPLATE_CONFIG`: the Python dicts have mandatory
`key`/`question`/`type` and optional `options`/`follow_up`/`help_text`
(`qtype` embeds the `type` key). -/
structure QuestionConfig where
  key : String
  question : String
  qtype : String
  options : Option (List String) := none
  follow_up : Option String := none
  help_text : Option String := none
deriving DecidableEq

/-- `TEMPLATE_CONFIG` (incident_template_agent.py lines 7-27). -/
def TEMPLATE_CONFIG : List QuestionConfig :=
  [ { key := "tipo_incidente", question := "¿Cuál es el tipo de incidente?", qtype := "text" },
    { key := "impacto", question := "Excelente. ¿Cuál fue el Impacto?", qtype := "choice",
      options := some ["Alto", "Medio", "Bajo"] },
    { key := "prioridad", question := "Ok. ¿Prioridad?", qtype := "choice",
      options := some ["Alta", "Media", "Baja"] },
    { key := "estado_actual", question := "¿Cuál es el estado Actual?", qtype := "choice",
      options := some ["Pendiente", "En Progreso", "Resuelto"] },
    { key := "unidad_negocio", question := "¿Cuál fue la unidad de negocio afectada?", qtype := "choice",
      options := some ["CROSS UNIDADES", "UNTM", "UNAONTEC", "PLACAS - SMT"] },
    { key := "usuarios_soporte", question := "¿Quién participó del soporte?", qtype := "list_text",
      follow_up := some "¿Alguien más participó en el soporte? (Deja vacío para terminar)" },
    { key := "descripcion_problema",
      question := "Bien, guardado. Y ahora cuéntame la descripción del problema.",
      qtype := "multiline_text" },
    { key := "acciones_realizadas", question := "¿Cuál fue la acción realizada?", qtype := "list_structured",
      follow_up := some "¿Se realizó alguna otra acción? (Deja vacío para terminar)",
      help_text := some "Ingresa la información en el siguiente formato:\n\n**Fecha** - **Detalle de la acción** - **Área/Responsable**\n\nEjemplo: 26/04/2025 - Se reinició el servidor principal - Soporte IT" },
    { key := "fecha_resolucion",
      question := "Ok. ¿Cuándo se resolvió? (Puedes escribir \"hoy\" o la fecha en formato DD/MM/YYYY)",
      qtype := "date_text" },
    { key := "observaciones", question := "Buenísimo. ¿Alguna observación adicional?", qtype := "multiline_text" } ]

/-- The `metadata["incident_flow"]` dict (orchestrator_agent.py lines 247-255). -/
structure IncidentFlowData where
  active : Bool
  current_step : Nat
  collected_data : List (String × FieldValue)
  temp_list_items : List String
  confirmation_step : Bool
deriving DecidableEq

/-- Cancel keywords (orchestrator_agent.py line 385). -/
def cancelKeywords : List String := ["cancelar", "salir", "cancel", "exit", "detener"]

/-- Confirmation keywords (line 394). -/
def yesKeywords : List String := ["sí", "si", "yes", "confirmar", "confirmo"]

/-- Correction keywords (line 397). -/
def noKeywords : List String := ["no", "corregir", "editar", "modificar"]

/-- List-closing keywords (line 509). -/
def noneKeywords : List String := ["ninguno", "none", "no hay", "nadie"]

/-- The `"- option"` bullet list shown for choice questions
(lines 279, 415, 478, 570). -/
def optionsText (options : List String) : String :=
  String.intercalate "\n" (options.map (fun option => "- " ++ option))

/-- Help text and choice options appended after a question's text
(lines 410-416 and 564-571). -/
def questionExtras (q : QuestionConfig) : String :=
  (match q.help_text with
   | some h => "\n\n" ++ h
   | none => "") ++
  (if q.qtype == "choice" then
    match q.options with
    | some opts => "\n\nOpciones disponibles:\n" ++ optionsText opts
    | none => ""
   else "")

/-- Python `str(...)` of a collected value as interpolated into the
Confluence prompt (line 681); lists render with Python's list repr. -/
def fieldValueText : FieldValue → String
  | FieldValue.str s => s
  | FieldValue.list items =>
    "[" ++ String.intercalate ", " (items.map (fun i => "'" ++ i ++ "'")) ++ "]"

/-- `data.get(k, default)` rendered as text for the summary
(lines 633-650). -/
def summarySlot (data : List (String × FieldValue)) (k dflt : String) : String :=
  match dictGet data k with
  | some v => fieldValueText v
  | none => dflt

/-- The `"\n- "`-joined rendering of a list slot in the summary, with the
word used when the slot is absent or empty (lines 618-628; the flow only
ever stores lists under these keys). -/
def summaryListSlot (data : List (String × FieldValue)) (k emptyWord : String) : String :=
  match dictGet data k with
  | some (FieldValue.list (x :: xs)) => "\n- " ++ String.intercalate "\n- " (x :: xs)
  | _ => emptyWord

/-- `OrchestratorAgent._prepare_incident_summary` (lines 608-652). -/
def prepareIncidentSummary (data : List (String × FieldValue)) : String :=
  "\n📋 RESUMEN DEL INCIDENTE:\n------------------------\nTipo de incidente: "
    ++ summarySlot data "tipo_incidente" "N/A"
    ++ "\nFecha del incidente: " ++ summarySlot data "fecha_incidente" "N/A"
    ++ "\nImpacto: " ++ summarySlot data "impacto" "N/A"
    ++ "\nPrioridad: " ++ summarySlot data "prioridad" "N/A"
    ++ "\nEstado actual: " ++ summarySlot data "estado_actual" "N/A"
    ++ "\nUnidad de negocio: " ++ summarySlot data "unidad_negocio" "N/A"
    ++ "\n\nDescripción del problema:\n" ++ summarySlot data "descripcion_problema" "N/A"
    ++ "\n\nUsuarios de soporte: " ++ summaryListSlot data "usuarios_soporte" "Ninguno"
    ++ "\n\nAcciones realizadas: " ++ summaryListSlot data "acciones_realizadas" "Ninguna"
    ++ "\n\nFecha de resolución: " ++ summarySlot data "fecha_resolucion" "Pendiente"
    ++ "\n\nObservaciones:\n" ++ summarySlot data "observaciones" "N/A" ++ "\n"

/-- Python truthiness of a collected value (`not incident_data[field]`,
line 667). -/
def fieldTruthy : FieldValue → Bool
  | FieldValue.str s => !(s == "")
  | FieldValue.list items => !items.isEmpty

/-- Required slots checked before page creation (line 666). -/
def requiredFields : List String :=
  ["tipo_incidente", "fecha_incidente", "impacto", "prioridad", "estado_actual"]

/-- Characters Python's `\s` matches. -/
def isPySpace (c : Char) : Bool :=
  c == ' ' || c == '\t' || c == '\n' || c == '\r' || c == '\x0b' || c == '\x0c'

/-- Python `str.strip()` (over `\s` whitespace). -/
def pyStrip (l : List Char) : List Char :=
  ((l.dropWhile isPySpace).reverse.dropWhile isPySpace).reverse

/-- `re.search(r'(https?://[^\s]+)', s)`: leftmost URL in `s`
(lines 697-699). -/
def findUrl : List Char → Option String
  | [] => none
  | l@(_ :: rest) =>
    if listPrefixEq "https://".toList l then
      let tail := l.drop 8
      match tail.takeWhile (fun c => !isPySpace c) with
      | [] => findUrl rest
      | body => some (String.mk ("https://".toList ++ body))
    else if listPrefixEq "http://".toList l then
      let tail := l.drop 7
      match tail.takeWhile (fun c => !isPySpace c) with
      | [] => findUrl rest
      | body => some (String.mk ("http://".toList ++ body))
    else findUrl rest

/-- `re.search(r'Título: ([^\n]+)', s)`: the text after the leftmost
`"Título: "` up to the end of its line (lines 702-703). -/
def findTitulo : List Char → Option String
  | [] => none
  | l@(_ :: rest) =>
    if listPrefixEq "Título: ".toList l then
      match (l.drop 8).takeWhile (fun c => !(c == '\n')) with
      | [] => findTitulo rest
      | body => some (String.mk body)
    else findTitulo rest

/-- `OrchestratorAgent._create_incident_page` (lines 654-725), with the
Confluence agent's `process_message_sync` as an oracle.  Returns the
user-facing response and the updated flow state.  Note line 692: on a
normal (non-raising) oracle return, `active` is set to `False` *before*
the success check, so it is cleared on failure responses too. -/
def createIncidentPage (confluenceOracle : AgentOracle) (flow : IncidentFlowData) :
    String × IncidentFlowData :=
  let incidentData := flow.collected_data
  let missingFields := requiredFields.filter (fun f =>
    match dictGet incidentData f with
    | none => true
    | some v => !(fieldTruthy v))
  if !missingFields.isEmpty then
    ("No se puede crear la página de incidente porque faltan campos requeridos: "
      ++ String.intercalate ", " missingFields ++ ". Por favor, proporciona esta información.",
     flow)
  else
    let spaceKey := "PSIMDESASW"
    let incidentStr := String.intercalate "\n"
      (incidentData.map (fun kv => kv.1 ++ ": " ++ fieldValueText kv.2))
    let confluencePrompt :=
      "\n            Crea una página de incidente en el espacio " ++ spaceKey
        ++ " con los siguientes datos:\n            \n            " ++ incidentStr
        ++ "\n            "
    match confluenceOracle confluencePrompt with
    | AgentOutcome.raised e =>
      -- lines 721-725: the exception is raised before line 692 runs, so
      -- `active` keeps its previous value
      ("Error al crear la página de incidente: " ++ e, flow)
    | AgentOutcome.ok resultMessage =>
      let flow := { flow with active := false }
      if strContains (strLower resultMessage) "exitosamente"
          || strContains (strLower resultMessage) "creada" then
        let url := (findUrl resultMessage.toList).getD "No disponible"
        let title := (findTitulo resultMessage.toList).getD "Incidente creado"
        ("✅ ¡Página de incidente creada exitosamente!\n\nTítulo: " ++ title
          ++ "\nURL: " ++ url ++ "\n\n¿En qué más puedo ayudarte?", flow)
      else
        ("❌ Hubo un problema al crear la página de incidente:\n\n" ++ resultMessage
          ++ "\n\nLos datos del incidente siguen guardados. Puedes intentar nuevamente "
          ++ "o contactar al administrador del sistema para resolver el problema.", flow)

/-- The "all data collected" response that flips `confirmation_step`
(lines 430-442 and 543-555). -/
def confirmationSummaryResponse (flow : IncidentFlowData) : String × IncidentFlowData :=
  let flow := { flow with confirmation_step := true }
  ("¡Gracias! He recopilado toda la información necesaria.\n\n"
    ++ prepareIncidentSummary flow.collected_data
    ++ "\n\n¿Es correcta toda la información? Responde 'sí' para crear la página de incidente, "
    ++ "o 'no' si deseas corregir algún dato.", flow)

/-- Placeholder question used only to keep the embedding total where the
Python code would raise `IndexError` on an empty template (line 403); the
actual template is never empty. -/
def defaultQuestion : QuestionConfig :=
  { key := "", question := "", qtype := "" }

/-- `OrchestratorAgent._handle_incident_flow` (lines 369-574).
`confluenceOracle` abstracts the Confluence agent; `parseDateF` abstracts
`OrchestratorAgent._parse_date` (wall-clock dependent, returning the
normalized date string or `None`).  Returns the user-facing response and
the updated `incident_flow` state. -/
def handleIncidentFlow (confluenceOracle : AgentOracle) (parseDateF : String → Option String)
    (templateConfig : List QuestionConfig) (message : String) (flow : IncidentFlowData) :
    String × IncidentFlowData :=
  if cancelKeywords.contains (strLower message) then
    ("Proceso de creación de incidente cancelado. ¿En qué más puedo ayudarte?",
     { flow with active := false })
  else if flow.confirmation_step then
    if yesKeywords.contains (strLower message) then
      createIncidentPage confluenceOracle flow
    else if noKeywords.contains (strLower message) then
      let flow := { flow with confirmation_step := false, current_step := 0 }
      let firstQuestion := templateConfig.head?.getD defaultQuestion
      ("Vamos a corregir la información. Comencemos de nuevo.\n\n"
        ++ firstQuestion.question ++ questionExtras firstQuestion, flow)
    else
      ("No entendí tu respuesta. Por favor confirma si la información es correcta respondiendo 'sí' para crear "
        ++ "la página de incidente, o 'no' si deseas corregir algún dato.", flow)
  else if hstep : flow.current_step < templateConfig.length then
    let q := templateConfig.get ⟨flow.current_step, hstep⟩
    let processed : (String × IncidentFlowData) ⊕ IncidentFlowData :=
      if q.qtype == "text" || q.qtype == "multiline_text" then
        Sum.inr { flow with
          collected_data := dictSet flow.collected_data q.key (FieldValue.str message),
          current_step := flow.current_step + 1 }
      else if q.qtype == "choice" then
        let options := q.options.getD []
        let matchedOption : Option String :=
          if options.contains message then some message
          else options.find? (fun option =>
            strContains (strLower message) (strLower option)
              || strContains (strLower option) (strLower message))
        match matchedOption with
        | some opt =>
          Sum.inr { flow with
            collected_data := dictSet flow.collected_data q.key (FieldValue.str opt),
            current_step := flow.current_step + 1 }
        | none =>
          Sum.inl ("Tu respuesta '" ++ message
            ++ "' no coincide con ninguna de las opciones disponibles. "
            ++ "Por favor, elige una de las siguientes opciones:\n" ++ optionsText options,
            flow)
      else if q.qtype == "date_text" then
        match parseDateF message with
        | some parsedDate =>
          Sum.inr { flow with
            collected_data := dictSet flow.collected_data q.key (FieldValue.str parsedDate),
            current_step := flow.current_step + 1 }
        | none =>
          Sum.inl ("No pude interpretar la fecha '" ++ message
            ++ "'. Por favor, utiliza uno de estos formatos: "
            ++ "DD/MM/YYYY, DD-MM-YYYY, o escribe 'hoy' para la fecha actual.", flow)
      else if q.qtype == "list_text" || q.qtype == "list_structured" then
        let tempItems := flow.temp_list_items
        if (pyStrip message.toList).isEmpty && !tempItems.isEmpty then
          Sum.inr { flow with
            collected_data := dictSet flow.collected_data q.key (FieldValue.list tempItems),
            temp_list_items := [],
            current_step := flow.current_step + 1 }
        else if noneKeywords.contains (strLower message) then
          Sum.inr { flow with
            collected_data := dictSet flow.collected_data q.key (FieldValue.list []),
            temp_list_items := [],
            current_step := flow.current_step + 1 }
        else
          let newItems :=
            if q.qtype == "list_text" then
              (((message.toList.splitOn ',').map (fun item => String.mk (pyStrip item))).filter
                (fun i => !(i == "")))
            else [message]
          let tempItems := tempItems ++ newItems
          let flow := { flow with temp_list_items := tempItems }
          match q.follow_up with
          | some followUp =>
            let response := followUp
              ++ (if q.qtype == "list_structured" then
                    match q.help_text with
                    | some h => "\n\n" ++ h
                    | none => ""
                  else "")
              ++ (if !tempItems.isEmpty then
                    "\n\nElementos agregados hasta ahora:\n"
                      ++ String.intercalate "\n" (tempItems.map (fun item => "- " ++ item))
                  else "")
              ++ "\n\n(Deja el mensaje vacío para continuar)"
            Sum.inl (response, flow)
          | none => Sum.inr flow
      else
        Sum.inr flow
    match processed with
    | Sum.inl result => result
    | Sum.inr flow =>
      if h2 : flow.current_step < templateConfig.length then
        let nextQ := templateConfig.get ⟨flow.current_step, h2⟩
        (nextQ.question ++ questionExtras nextQ, flow)
      else
        confirmationSummaryResponse flow
  else
    confirmationSummaryResponse flow

/-! ## Duration parser (jira_agent.py lines 243-290) -/

/-- Greedy `\d+` at the head of the input: the digit run and the rest. -/
def takeDigits : List Char → List Char × List Char
  | [] => ([], [])
  | c :: rest =>
    if c.isDigit then
      let (d, r) := takeDigits rest
      (c :: d, r)
    else ([], c :: rest)

/-- Value of a digit run. -/
def digitsToNat (ds : List Char) : Nat :=
  ds.foldl (fun n c => 10 * n + (c.toNat - '0'.toNat)) 0

/-- An exact fraction with positive denominator: the decimal values
Python parses from the matched number strings (floats are exact on these
short decimals). -/
structure Frac where
  num : Int
  den : Nat
deriving DecidableEq

/-- The fraction written `intPart.fracPart` in decimal digits. -/
def fracOfDigits (intPart fracPart : List Char) : Frac :=
  { num := ((digitsToNat intPart * 10 ^ fracPart.length + digitsToNat fracPart : Nat) : Int)
    den := 10 ^ fracPart.length }

/-- Multiply a fraction by a natural constant. -/
def fracMulNat (q : Frac) (k : Nat) : Frac :=
  { num := q.num * (k : Int), den := q.den }

/-- Add two fractions (no normalization needed for rounding). -/
def fracAdd (a b : Frac) : Frac :=
  { num := a.num * (b.den : Int) + b.num * (a.den : Int), den := a.den * b.den }

/-- Match `\d+\.?\d*` at the head of the input and return its numeric
value with the rest of the input. -/
def parseNumAt (l : List Char) : Option (Frac × List Char) :=
  let (d1, r1) := takeDigits l
  if d1.isEmpty then none
  else
    match r1 with
    | '.' :: r2 =>
      let (d2, r3) := takeDigits r2
      some (fracOfDigits d1 d2, r3)
    | _ => some (fracOfDigits d1 [], r1)

/-- Greedy `\s*`. -/
def skipPySpaces (l : List Char) : List Char :=
  l.dropWhile isPySpace

/-- The optional suffix group `(?:ora?s?)?` after an `h`. -/
def dropHoraGroup : List Char → List Char
  | 'o' :: 'r' :: rest =>
    let rest1 := match rest with
      | 'a' :: r => r
      | _ => rest
    (match rest1 with
     | 's' :: r => r
     | _ => rest1)
  | l => l

/-- What the duration regex (jira_agent.py lines 249-252) matched: both an
hours and a minutes group, hours only, or minutes only. -/
inductive TimeMatch where
  | hm (hours minutes : Frac)
  | hOnly (hours : Frac)
  | mOnly (minutes : Frac)
deriving DecidableEq

/-- First alternative `(\d+\.?\d*)\s*h(?:ora?s?)?\s*(\d+\.?\d*)\s*m(?:inuto?s?)?`
anchored at the head of the input. -/
def tryTimeAlt1 (l : List Char) : Option TimeMatch :=
  match parseNumAt l with
  | none => none
  | some (h, r1) =>
    match skipPySpaces r1 with
    | 'h' :: r2 =>
      match parseNumAt (skipPySpaces (dropHoraGroup r2)) with
      | none => none
      | some (m, r4) =>
        match skipPySpaces r4 with
        | 'm' :: _ => some (TimeMatch.hm h m)
        | _ => none
    | _ => none

/-- Second alternative `(\d+\.?\d*)\s*h(?:ora?s?)?` anchored at the head. -/
def tryTimeAlt2 (l : List Char) : Option TimeMatch :=
  match parseNumAt l with
  | none => none
  | some (h, r1) =>
    match skipPySpaces r1 with
    | 'h' :: _ => some (TimeMatch.hOnly h)
    | _ => none

/-- Third alternative `(\d+\.?\d*)\s*m(?:inuto?s?)?` anchored at the head. -/
def tryTimeAlt3 (l : List Char) : Option TimeMatch :=
  match parseNumAt l with
  | none => none
  | some (m, r1) =>
    match skipPySpaces r1 with
    | 'm' :: _ => some (TimeMatch.mOnly m)
    | _ => none

/-- `re.search` over the three-alternative duration pattern: leftmost
starting position wins, alternatives tried in order at each position. -/
def searchTimeMatch : List Char → Option TimeMatch
  | [] => none
  | c :: rest =>
    match tryTimeAlt1 (c :: rest) with
    | some t => some t
    | none =>
      match tryTimeAlt2 (c :: rest) with
      | some t => some t
      | none =>
        match tryTimeAlt3 (c :: rest) with
        | some t => some t
        | none => searchTimeMatch rest

/-- `re.search(r'(\d+\.?\d*)', l)`: leftmost number. -/
def findFirstNum : List Char → Option Frac
  | [] => none
  | c :: rest =>
    match parseNumAt (c :: rest) with
    | some (q, _) => some q
    | none => findFirstNum rest

/-- Decimal body accepted by Python `float(...)` (the decimal subset:
digits with an optional point; exponents/inf are not exercised here). -/
def parseFloatBody (l : List Char) : Option Frac :=
  let (d1, r1) := takeDigits l
  match r1 with
  | '.' :: r2 =>
    let (d2, r3) := takeDigits r2
    if r3.isEmpty && !(d1.isEmpty && d2.isEmpty) then
      some (fracOfDigits d1 d2)
    else none
  | [] => if d1.isEmpty then none else some (fracOfDigits d1 [])
  | _ => none

/-- Python `float(s)` on its decimal subset: strip, optional sign, body. -/
def parsePyFloat (s : String) : Option Frac :=
  match pyStrip s.toList with
  | '+' :: r => parseFloatBody r
  | '-' :: r => (parseFloatBody r).map (fun q => { q with num := -q.num })
  | l => parseFloatBody l

/-- Python `round(x)`: round half to even, on an exact fraction with
positive denominator (`rem2` is twice the fractional remainder scaled by
the denominator). -/
def pyRound (q : Frac) : Int :=
  let f := q.num.fdiv (q.den : Int)
  let rem2 := 2 * (q.num - f * (q.den : Int))
  if rem2 < (q.den : Int) then f
  else if (q.den : Int) < rem2 then f + 1
  else if f % 2 == 0 then f else f + 1

/-- `time_str.lower().replace(",", ".")` (jira_agent.py line 245). -/
def normTime (s : String) : List Char :=
  (strLower s).toList.map (fun c => if c == ',' then '.' else c)

/-- The `total_minutes` computed by `_parse_time_str_to_seconds`
(lines 246-282); `none` models the unrecognized-format `return None` of
line 282. -/
def totalMinutesOf (l : List Char) : Option Int :=
  match searchTimeMatch l with
  | some (TimeMatch.hm h m) => some (pyRound (fracAdd (fracMulNat h 60) m))
  | some (TimeMatch.hOnly h) => some (pyRound (fracAdd (fracMulNat h 60) (fracOfDigits [] [])))
  | some (TimeMatch.mOnly m) => some (pyRound (fracAdd (fracMulNat (fracOfDigits [] []) 60) m))
  | none =>
    if listContains l "hora".toList || listContains l " h".toList then
      some (match findFirstNum l with
            | some q => pyRound (fracMulNat q 60)
            | none => 0)
    else if listContains l "minuto".toList || listContains l " min".toList
        || listContains l " m".toList then
      some (match findFirstNum l with
            | some q => pyRound q
            | none => 0)
    else
      match parsePyFloat (String.mk l) with
      | some q => some (pyRound q)
      | none => none

/-- `JiraAgent._parse_time_str_to_seconds` (jira_agent.py lines 243-290):
normalize, extract total minutes, reject totals `<= 0`, return seconds. -/
def parseTimeStrToSeconds (timeStr : String) : Option Int :=
  match totalMinutesOf (normTime timeStr) with
  | none => none
  | some totalMinutes =>
    if totalMinutes ≤ 0 then none else some (totalMinutes * 60)

/-! ## Date parser (jira_agent.py lines 318-408) -/

/-- Days in a month of the proleptic Gregorian calendar. -/
def daysInMonth (y m : Nat) : Nat :=
  if m == 2 then
    if y % 4 == 0 && (y % 100 != 0 || y % 400 == 0) then 29 else 28
  else if m == 4 || m == 6 || m == 9 || m == 11 then 30
  else 31

/-- A calendar triple Python's `date` accepts. -/
def validYmd (y m d : Nat) : Bool :=
  1 ≤ y && y ≤ 9999 && 1 ≤ m && m ≤ 12 && 1 ≤ d && d ≤ daysInMonth y m

/-- Days since 1970-01-01 of a Gregorian date (the civil-from-days
algorithm); models Python `datetime.date` arithmetic, where subtracting
`timedelta(days=k)` is subtraction on this day number. -/
def daysFromCivil (y m d : Nat) : Int :=
  let y' := if m ≤ 2 then y - 1 else y
  let era := y' / 400
  let yoe := y' - era * 400
  let mp := if m > 2 then m - 3 else m + 9
  let doy := (153 * mp + 2) / 5 + d - 1
  let doe := yoe * 365 + yoe / 4 + doy - yoe / 100
  (era * 146097 + doe : Int) - 719468

/-- Python `date.weekday()`: Monday = 0 .. Sunday = 6
(1970-01-01 was a Thursday, hence the offset 3). -/
def weekdayOf (r : Int) : Int :=
  (r + 3) % 7

/-- The `days_of_week` dict of jira_agent.py lines 346-350 (and 383-387),
in insertion order. -/
def weekdayNamesList : List (String × Int) :=
  [("lunes", 0), ("martes", 1), ("miércoles", 2), ("miercoles", 2),
   ("jueves", 3), ("viernes", 4), ("sábado", 5), ("sabado", 5), ("domingo", 6)]

/-- The `"<weekday> pasado"` computation (jira_agent.py lines 357-359):
`days_ago = (today.weekday() - target + 7) % 7`, promoted to a full week
when zero. -/
def pastWeekday (today targetDay : Int) : Int :=
  let daysAgo := (weekdayOf today - targetDay + 7) % 7
  let daysAgo := if daysAgo == 0 then 7 else daysAgo
  today - daysAgo

/-- Leading-article removal, first half of the `re.sub` on line 336:
`^(el|la|los|las|de|del)\s+`. -/
def stripLeadingArticle (l : List Char) : List Char :=
  let articles : List (List Char) :=
    [['e','l'], ['l','a'], ['l','o','s'], ['l','a','s'], ['d','e'], ['d','e','l']]
  match articles.find? (fun a =>
      listPrefixEq a l &&
        (match l.drop a.length with
         | c :: _ => isPySpace c
         | [] => false)) with
  | some a => (l.drop a.length).dropWhile isPySpace
  | none => l

/-- Trailing removal, second half of the `re.sub` on line 336:
`(\s+de|del)$`. -/
def stripTrailingDe (l : List Char) : List Char :=
  let r := l.reverse
  match r with
  | 'e' :: 'd' :: (c :: rest) =>
    if isPySpace c then ((c :: rest).dropWhile isPySpace).reverse else l
  | 'l' :: 'e' :: 'd' :: rest => rest.reverse
  | _ => l

/-- `desc_lower` as computed on jira_agent.py lines 334-336: lower-case,
strip, remove leading/trailing articles, strip. -/
def normDesc (s : String) : List Char :=
  pyStrip (stripTrailingDe (stripLeadingArticle (pyStrip (strLower s).toList)))

/-- `date.fromisoformat` on the strict `YYYY-MM-DD` form (line 365). -/
def isoParse (l : List Char) : Option Int :=
  match l with
  | [y1, y2, y3, y4, '-', m1, m2, '-', d1, d2] =>
    if (y1.isDigit && y2.isDigit && y3.isDigit && y4.isDigit
        && m1.isDigit && m2.isDigit && d1.isDigit && d2.isDigit) then
      let y := digitsToNat [y1, y2, y3, y4]
      let m := digitsToNat [m1, m2]
      let d := digitsToNat [d1, d2]
      if validYmd y m d then some (daysFromCivil y m d) else none
    else none
  | _ => none

/-- `datetime.strptime(desc, "%d/%m/%Y")` (line 369): day and month of one
or two digits, year of up to four digits, full-string match. -/
def dmyParse (l : List Char) : Option Int :=
  match l.splitOn '/' with
  | [ds, ms, ys] =>
    if (ds.all Char.isDigit && 1 ≤ ds.length && ds.length ≤ 2
        && ms.all Char.isDigit && 1 ≤ ms.length && ms.length ≤ 2
        && ys.all Char.isDigit && 1 ≤ ys.length && ys.length ≤ 4) then
      let d := digitsToNat ds
      let m := digitsToNat ms
      let y := digitsToNat ys
      if validYmd y m d then some (daysFromCivil y m d) else none
    else none
  | _ => none

/-- Python `desc.replace('este ', '')` (line 390). -/
def replaceEste : List Char → List Char
  | 'e' :: 's' :: 't' :: 'e' :: ' ' :: rest => replaceEste rest
  | c :: rest => c :: replaceEste rest
  | [] => []

/-- `JiraAgent._parse_date_description_to_date_obj` (jira_agent.py
lines 318-408), over the session reference date `today` as a day number
(the function reads `current_date` from the agent context).
`monthNameParse` abstracts the locale-dependent
`strptime('%d de %B de %Y')` fallback of lines 372-380 (including its
current-year defaulting), which depends on the runtime locale. -/
def parseDateDescriptionToDateObj (monthNameParse : String → Option Int)
    (today : Int) (dateDescription : String) : Option Int :=
  let desc := normDesc dateDescription
  let descStr := String.mk desc
  let relParsed : Option Int :=
    if descStr == "hoy" then some today
    else if descStr == "ayer" then some (today - 1)
    else if descStr == "anteayer" then some (today - 2)
    else if listContains desc "pasado".toList || listContains desc "pasada".toList then
      match weekdayNamesList.find? (fun p => listContains desc p.1.toList) with
      | some p => some (pastWeekday today p.2)
      | none => none
    else none
  match relParsed with
  | some d => some d
  | none =>
    match isoParse desc with
    | some d => some d
    | none =>
      match dmyParse desc with
      | some d => some d
      | none =>
        match monthNameParse descStr with
        | some d => some d
        | none =>
          let cleaned := pyStrip (replaceEste desc)
          match weekdayNamesList.find? (fun p => p.1 == String.mk cleaned) with
          | some p => some (today + (p.2 - weekdayOf today))
          | none => none

/-! ## Reference resolvers
(confluence_agent.py lines 564-673, jira_agent.py lines 795-862) -/

/-- Try `keyword \s* (\d+)` at the head of the input, the keywords in
alternation order; with `optionalKeyword` the empty keyword is also tried
last (for a pattern whose keyword group is `(?:...)?`). -/
def tryKeywordNumAt (keywords : List (List Char)) (optionalKeyword : Bool)
    (l : List Char) : Option Nat :=
  match keywords.find? (fun k =>
      listPrefixEq k l && !(takeDigits (skipPySpaces (l.drop k.length))).1.isEmpty) with
  | some k => some (digitsToNat (takeDigits (skipPySpaces (l.drop k.length))).1)
  | none =>
    if optionalKeyword then
      let ds := (takeDigits (skipPySpaces l)).1
      if ds.isEmpty then none else some (digitsToNat ds)
    else none

/-- `re.search` over a `keyword \s* (\d+)` pattern: leftmost starting
position wins. -/
def scanKeywordNum (keywords : List (List Char)) (optionalKeyword : Bool) :
    List Char → Option Nat
  | [] => none
  | c :: rest =>
    match tryKeywordNumAt keywords optionalKeyword (c :: rest) with
    | some n => some n
    | none => scanKeywordNum keywords optionalKeyword rest

/-- Keyword alternatives of the Confluence option pattern
`(?:opci[oó]n|numero|número|#|item|ítem)\s*(\d+)` (confluence_agent.py
line 602). -/
def confluenceOptionKeywords : List String :=
  ["opción", "opcion", "numero", "número", "#", "item", "ítem"]

/-- The Confluence `option_match` number, from the lowered reference. -/
def findOptionNumConfluence (refLower : String) : Option Nat :=
  scanKeywordNum (confluenceOptionKeywords.map String.toList) false refLower.toList

/-- `ordinal_map` of confluence_agent.py lines 607-608, in insertion
order. -/
def ordinalMapConfluence : List (String × Nat) :=
  [("primer", 1), ("segund", 2), ("tercer", 3), ("cuart", 4), ("quint", 5),
   ("sext", 6), ("séptim", 7), ("septim", 7), ("octav", 8), ("noven", 9), ("décim", 10)]

/-- The ordinal-word override loop (lines 609-612). -/
def ordinalScan (refLower : String) : Option Nat :=
  (ordinalMapConfluence.find? (fun p => strContains refLower p.1)).map (fun p => p.2)

/-- The bare-integer pattern `^(\d+)$` on the stripped reference
(lines 630-633). -/
def bareNum (reference : String) : Option Nat :=
  let t := pyStrip reference.toList
  if !t.isEmpty && t.all Char.isDigit then some (digitsToNat t) else none

/-- A stored Confluence search result as far as reference resolution reads
it: its display fields plus the smart-search `is_relevant` flag (absent
keys default to relevant, `r.get("is_relevant", True)`). -/
structure ConfluencePage where
  id : String
  title : String
  is_relevant : Bool
deriving DecidableEq

/-- Resolver outcome: the selected page with the `was_filtered` flag when
the code attaches one, or the failure message. -/
inductive PageRefResult where
  | success (page : ConfluencePage) (wasFiltered : Option Bool)
  | failure (message : String)
deriving DecidableEq

/-- The explicitly-requested-filtered-page loop (confluence_agent.py
lines 588-596): for each filtered title contained in the reference (or
whenever the reference mentions sprint and goal), return the stored
result with exactly that title, continuing with later titles otherwise. -/
def filteredTitleLookup (lastResults : List ConfluencePage) (refLower : String) :
    List String → Option ConfluencePage
  | [] => none
  | title :: rest =>
    if strContains refLower (strLower title)
        || (strContains refLower "sprint" && strContains refLower "goal") then
      match lastResults.find? (fun r => strLower r.title == strLower title) with
      | some r => some r
      | none => filteredTitleLookup lastResults refLower rest
    else filteredTitleLookup lastResults refLower rest

/-- `ConfluenceAgent.get_page_by_reference` (confluence_agent.py
lines 564-673).  `lastResults` is `context["last_search_results"]`,
`filteredTitles` is `filtered_results_info["irrelevant_titles"]` and
`irrelevantCount` is `filtered_results_info["irrelevant_results"]`. -/
def getPageByReference (lastResults : List ConfluencePage) (filteredTitles : List String)
    (irrelevantCount : Nat) (reference : String) : PageRefResult :=
  if lastResults.isEmpty then
    PageRefResult.failure "No hay resultados de búsqueda previos para obtener referencia"
  else
    let refLower := strLower reference
    match filteredTitleLookup lastResults refLower filteredTitles with
    | some r => PageRefResult.success r (some true)
    | none =>
      let index0 := findOptionNumConfluence refLower
      let index1 :=
        match ordinalScan refLower with
        | some v => some v
        | none => index0
      let otraHit :=
        if strContains refLower "otra" && irrelevantCount > 0 then
          lastResults.find? (fun r => !r.is_relevant)
        else none
      match otraHit with
      | some r => PageRefResult.success r (some true)
      | none =>
        let filtradaHit :=
          if strContains refLower "no relevante" || strContains refLower "filtrada"
              || strContains refLower "sprint" then
            lastResults.find? (fun r => !r.is_relevant)
          else none
        match filtradaHit with
        | some r => PageRefResult.success r (some true)
        | none =>
          let index :=
            match index1 with
            | some v => some v
            | none => bareNum reference
          let byIndex : Option PageRefResult :=
            match index with
            | none => none
            | some n =>
              let relevantResults := lastResults.filter (fun r => r.is_relevant)
              if h : 1 ≤ n ∧ n ≤ relevantResults.length then
                some (PageRefResult.success (relevantResults.get ⟨n - 1, by omega⟩) none)
              else if h2 : 1 ≤ n ∧ n ≤ lastResults.length then
                let selected := lastResults.get ⟨n - 1, by omega⟩
                some (PageRefResult.success selected (some (!selected.is_relevant)))
              else none
          match byIndex with
          | some r => r
          | none =>
            match lastResults.find? (fun r =>
                strContains refLower (strLower r.title)
                  || strContains (strLower r.title) refLower) with
            | some r => PageRefResult.success r (some (!r.is_relevant))
            | none =>
              PageRefResult.failure
                ("No se encontró página para la referencia '" ++ reference ++ "'")

/-- Keyword alternatives of the Jira option pattern
`(?:opción|opcion|option|número|numero|number)?\s*(\d+)` (jira_agent.py
line 814); the whole keyword group is optional, so any digit run
matches. -/
def jiraOptionKeywords : List String :=
  ["opción", "opcion", "option", "número", "numero", "number"]

/-- The Jira `option_match` number, from the lowered reference. -/
def findOptionNumJira (refLower : String) : Option Nat :=
  scanKeywordNum (jiraOptionKeywords.map String.toList) true refLower.toList

/-- A stored Jira search result as far as reference resolution reads it. -/
structure JiraIssue where
  key : String
  summary : String
deriving DecidableEq

/-- Resolver outcome for issues (the URL field of the source's success
dict comes from the external REST client and is omitted). -/
inductive IssueRefResult where
  | success (issue_key summary : String)
  | failure (error : String)
deriving DecidableEq

/-- `JiraAgent.get_issue_by_reference` (jira_agent.py lines 795-862). -/
def getIssueByReference (lastResults : List JiraIssue) (reference : String) : IssueRefResult :=
  if lastResults.isEmpty then
    IssueRefResult.failure "No hay resultados de búsqueda recientes para referenciar"
  else
    let refLower := strLower reference
    let selectedIndex : Option Nat :=
      match findOptionNumJira refLower with
      | some optionNum =>
        if 1 ≤ optionNum && optionNum ≤ lastResults.length then some (optionNum - 1) else none
      | none =>
        if strContains refLower "primera" || strContains refLower "primer"
            || strContains refLower "first" then
          some 0
        else if strContains refLower "última" || strContains refLower "ultimo"
            || strContains refLower "last" then
          some (lastResults.length - 1)
        else
          lastResults.findIdx? (fun issue =>
            strContains (strLower issue.summary) refLower
              || strContains (strLower issue.key) refLower)
    match selectedIndex with
    | some i =>
      match lastResults[i]? with
      | some issue => IssueRefResult.success issue.key issue.summary
      | none => IssueRefResult.failure ("No se pudo identificar una issue con la referencia '"
          ++ reference ++ "'")
    | none =>
      IssueRefResult.failure ("No se pudo identificar una issue con la referencia '"
        ++ reference ++ "'")

/-! ## Theorems -/

/-- Trimming never leaves more than the cap. -/
theorem trimHistory_length_le (l : List HistoryMessage) :
    (trimHistory l).length ≤ MAX_HISTORY_LENGTH := by
  unfold trimHistory
  split
  · simp only [List.length_drop]
    omega
  · omega

/-- Trimming always keeps exactly the suffix beyond the cap. -/
theorem trimHistory_eq_drop (l : List HistoryMessage) :
    trimHistory l = l.drop (l.length - MAX_HISTORY_LENGTH) := by
  unfold trimHistory
  by_cases h : l.length > MAX_HISTORY_LENGTH
  · rw [if_pos h]
  · rw [if_neg h]
    have h0 : l.length - MAX_HISTORY_LENGTH = 0 := by omega
    rw [h0, List.drop_zero]

/-- Trimming before an append does not change the trimmed result of the
append. -/
theorem trimHistory_append_trimHistory (l : List HistoryMessage) (x : HistoryMessage) :
    trimHistory (trimHistory l ++ [x]) = trimHistory (l ++ [x]) := by
  rw [trimHistory_eq_drop l, trimHistory_eq_drop, trimHistory_eq_drop]
  rw [List.drop_append_eq_append_drop, List.drop_append_eq_append_drop,
    List.drop_drop]
  simp only [List.length_append, List.length_drop, List.length_singleton]
  congr 1
  · congr 1
    omega
  · congr 1
    omega

/-- Folding history operations over a trimmed start equals trimming at the
end. -/
theorem runHistOps_trimHistory (ops : List HistOp) :
    ∀ l, runHistOps (trimHistory l) ops = trimHistory (l ++ ops.map histOpMsg) := by
  induction ops with
  | nil => intro l; simp [runHistOps]
  | cons op ops ih =>
    intro l
    show runHistOps (applyHistOp (trimHistory l) op) ops = _
    unfold applyHistOp
    rw [trimHistory_append_trimHistory, ih (l ++ [histOpMsg op])]
    rw [List.map_cons, List.append_assoc, List.singleton_append]

/-- C3.  After any sequence of `add_user_message` / `add_assistant_message`
operations starting from an empty history, the conversation history holds
at most `MAX_HISTORY_LENGTH = 20` entries, and it is exactly the suffix of
the appended entries in append order with the oldest entries dropped
(FIFO eviction). -/
theorem history_cap_and_fifo_eviction (ops : List HistOp) :
    (runHistOps [] ops).length ≤ MAX_HISTORY_LENGTH ∧
    runHistOps [] ops =
      (ops.map histOpMsg).drop ((ops.map histOpMsg).length - MAX_HISTORY_LENGTH) := by
  have htrim : trimHistory ([] : List HistoryMessage) = [] := rfl
  have h := runHistOps_trimHistory ops []
  rw [htrim, List.nil_append] at h
  have hdrop : ∀ l : List HistoryMessage,
      trimHistory l = l.drop (l.length - MAX_HISTORY_LENGTH) := by
    intro l
    unfold trimHistory
    split
    · rfl
    · have : l.length - MAX_HISTORY_LENGTH = 0 := by omega
      rw [this, List.drop_zero]
  constructor
  · rw [h]; exact trimHistory_length_le _
  · rw [h, hdrop]

/-- C5.  Sticky routing with override: with a previous active domain a
fresh `"unsure"` classification reuses it; a definite classification that
differs switches to it; with no previous domain `"unsure"` defaults to the
jira (issue) domain. -/
theorem sticky_routing_rules (a c : String) :
    determineAgentWithContext (some a) "unsure" = a ∧
    ((c = "jira" ∨ c = "confluence" ∨ c = "incident") → c ≠ a →
      determineAgentWithContext (some a) c = c) ∧
    determineAgentWithContext none "unsure" = "jira" := by
  refine ⟨?_, ?_, rfl⟩
  · simp [determineAgentWithContext]
  · intro hc hne
    have hcu : (c != "unsure") = true := by
      rcases hc with h | h | h <;> rw [h] <;> decide
    have hca : (c != a) = true := bne_iff_ne.mpr hne
    simp [determineAgentWithContext, hcu, hca]

/-- Witness for C5 at concrete inputs. -/
theorem sticky_routing_rules_witness :
    determineAgentWithContext (some "jira") "unsure" = "jira" ∧
    determineAgentWithContext (some "jira") "confluence" = "confluence" ∧
    determineAgentWithContext none "unsure" = "jira" :=
  ⟨(sticky_routing_rules "jira" "confluence").1,
   (sticky_routing_rules "jira" "confluence").2.1 (Or.inr (Or.inl rfl)) (by decide),
   (sticky_routing_rules "jira" "confluence").2.2⟩

/-- C1 counterexample.  A message arriving while the incident flow is
active (`incidentActive = true`, no terminal state involved) is *not*
forwarded to the incident-flow handler when the classifier answers
`"jira"`: it is routed to the jira task agent, so classification is not
bypassed and routing to a task agent remains possible during an active
flow. -/
theorem active_flow_message_routed_to_jira_counterexample :
    routeMessage "Alto" none true "jira" = Route.jiraAgent ∧
    Route.jiraAgent ≠ Route.incidentContinue := by
  constructor
  · rfl
  · decide

/-- C1 amended.  A non-cleanup message reaches the incident-flow handler
while the flow is active exactly when the sticky classification resolves
to `"incident"`; the classifier runs on every non-cleanup message, and
otherwise the message is routed by classification even though the flow is
active. -/
theorem incident_routing_requires_incident_classification (message : String)
    (active : Option String) (classification : String)
    (h : message ≠ "$__cleanup_signal__") :
    routeMessage message active true classification = Route.incidentContinue ↔
      determineAgentWithContext active classification = "incident" := by
  unfold routeMessage
  have hb : (message == "$__cleanup_signal__") = false := by
    simp [h]
  rw [if_neg (by simp [hb])]
  by_cases hj : determineAgentWithContext active classification = "jira"
  · simp [hj]
  · by_cases hc : determineAgentWithContext active classification = "confluence"
    · simp [hc]
    · by_cases hi : determineAgentWithContext active classification = "incident"
      · simp [hj, hc, hi]
      · simp [hj, hc, hi]

/-- Witness for C1's amended theorem at concrete inputs. -/
theorem incident_routing_requires_incident_classification_witness :
    routeMessage "Alto" none true "incident" = Route.incidentContinue :=
  (incident_routing_requires_incident_classification "Alto" none "incident"
    (by decide)).mpr (by decide)

/-- C2 counterexample.  When the initial agent declines and the alternate
*throws*, the returned apology names only the alternate agent: it does not
mention the jira domain at all, so it does not name both domains as the
claim states. -/
theorem reflection_alternate_throw_apology_counterexample :
    strContains (strLower (processTaskAgentTurn
        (fun _ => AgentOutcome.ok CANNOT_HANDLE_SIGNAL)
        (fun _ => AgentOutcome.raised "boom") "jira" "dame el estado").response)
      "jira" = false ∧
    strContains (strLower (processTaskAgentTurn
        (fun _ => AgentOutcome.ok CANNOT_HANDLE_SIGNAL)
        (fun _ => AgentOutcome.raised "boom") "jira" "dame el estado").response)
      "confluence" = true := by
  constructor
  · decide
  · decide

/-- The double-decline apology mentions both domains. -/
theorem bothDomainsNamed :
    strContains (strLower "Lo siento, parece que ni Jira ni Confluence pueden manejar esta solicitud específica.") "jira" = true ∧
    strContains (strLower "Lo siento, parece que ni Jira ni Confluence pueden manejar esta solicitud específica.") "confluence" = true := by
  constructor <;> decide

/-- C2 amended.  When the initially selected task agent returns the
CANNOT_HANDLE signal, the same message is retried exactly once with the
other task agent (each agent is invoked exactly once); if the alternate
produces a normal response the recorded `active_agent` is the alternate;
if the alternate also signals CANNOT_HANDLE a single apology naming both
domains is returned; if the alternate throws, a single apology naming
only the alternate agent is returned. -/
theorem reflection_one_hop_behavior (jiraOracle confluenceOracle : AgentOracle)
    (message : String) :
    (jiraOracle message = AgentOutcome.ok CANNOT_HANDLE_SIGNAL →
      (processTaskAgentTurn jiraOracle confluenceOracle "jira" message).jiraCalls = [message] ∧
      (processTaskAgentTurn jiraOracle confluenceOracle "jira" message).confluenceCalls = [message] ∧
      (∀ resp, confluenceOracle message = AgentOutcome.ok resp → resp ≠ CANNOT_HANDLE_SIGNAL →
        (processTaskAgentTurn jiraOracle confluenceOracle "jira" message).response = resp ∧
        (processTaskAgentTurn jiraOracle confluenceOracle "jira" message).activeAgent = "confluence") ∧
      (confluenceOracle message = AgentOutcome.ok CANNOT_HANDLE_SIGNAL →
        strContains (strLower (processTaskAgentTurn jiraOracle confluenceOracle "jira" message).response) "jira" = true ∧
        strContains (strLower (processTaskAgentTurn jiraOracle confluenceOracle "jira" message).response) "confluence" = true) ∧
      (∀ e, confluenceOracle message = AgentOutcome.raised e →
        (processTaskAgentTurn jiraOracle confluenceOracle "jira" message).response =
          "Lo siento, ocurrió un error al intentar procesar tu solicitud con el agente alternativo (confluence).")) ∧
    (confluenceOracle message = AgentOutcome.ok CANNOT_HANDLE_SIGNAL →
      (processTaskAgentTurn jiraOracle confluenceOracle "confluence" message).jiraCalls = [message] ∧
      (processTaskAgentTurn jiraOracle confluenceOracle "confluence" message).confluenceCalls = [message] ∧
      (∀ resp, jiraOracle message = AgentOutcome.ok resp → resp ≠ CANNOT_HANDLE_SIGNAL →
        (processTaskAgentTurn jiraOracle confluenceOracle "confluence" message).response = resp ∧
        (processTaskAgentTurn jiraOracle confluenceOracle "confluence" message).activeAgent = "jira") ∧
      (jiraOracle message = AgentOutcome.ok CANNOT_HANDLE_SIGNAL →
        strContains (strLower (processTaskAgentTurn jiraOracle confluenceOracle "confluence" message).response) "jira" = true ∧
        strContains (strLower (processTaskAgentTurn jiraOracle confluenceOracle "confluence" message).response) "confluence" = true) ∧
      (∀ e, jiraOracle message = AgentOutcome.raised e →
        (processTaskAgentTurn jiraOracle confluenceOracle "confluence" message).response =
          "Lo siento, ocurrió un error al intentar procesar tu solicitud con el agente alternativo (jira).")) := by
  constructor
  · intro hsig
    cases hconf : confluenceOracle message with
    | raised e =>
      have hres : processTaskAgentTurn jiraOracle confluenceOracle "jira" message =
          { response := "Lo siento, ocurrió un error al intentar procesar tu solicitud con el agente alternativo (confluence)."
            activeAgent := "jira", jiraCalls := [message], confluenceCalls := [message] } := by
        simp [processTaskAgentTurn, alternativeAgentName, hsig, hconf]
      refine ⟨by rw [hres], by rw [hres], ?_, ?_, ?_⟩
      · intro resp hr; exact absurd hr (by simp)
      · intro hr; exact absurd hr (by simp)
      · intro e' _; rw [hres]
    | ok resp =>
      by_cases hcs : resp = CANNOT_HANDLE_SIGNAL
      · subst hcs
        have hres : processTaskAgentTurn jiraOracle confluenceOracle "jira" message =
            { response := "Lo siento, parece que ni Jira ni Confluence pueden manejar esta solicitud específica."
              activeAgent := "jira", jiraCalls := [message], confluenceCalls := [message] } := by
          simp [processTaskAgentTurn, alternativeAgentName, hsig, hconf]
        refine ⟨by rw [hres], by rw [hres], ?_, ?_, ?_⟩
        · intro resp' hr hne
          cases hr
          exact absurd rfl hne
        · intro _
          rw [hres]
          exact bothDomainsNamed
        · intro e' hr; exact absurd hr (by simp)
      · have hb : (resp == CANNOT_HANDLE_SIGNAL) = false := by
          simp [hcs]
        have hres : processTaskAgentTurn jiraOracle confluenceOracle "jira" message =
            { response := resp
              activeAgent := "confluence", jiraCalls := [message], confluenceCalls := [message] } := by
          simp [processTaskAgentTurn, alternativeAgentName, hsig, hconf, hb]
        refine ⟨by rw [hres], by rw [hres], ?_, ?_, ?_⟩
        · intro resp' hr _
          cases hr
          exact ⟨by rw [hres], by rw [hres]⟩
        · intro hr
          cases hr
          exact absurd rfl hcs
        · intro e' hr; exact absurd hr (by simp)
  · intro hsig
    cases hjira : jiraOracle message with
    | raised e =>
      have hres : processTaskAgentTurn jiraOracle confluenceOracle "confluence" message =
          { response := "Lo siento, ocurrió un error al intentar procesar tu solicitud con el agente alternativo (jira)."
            activeAgent := "confluence", jiraCalls := [message], confluenceCalls := [message] } := by
        simp [processTaskAgentTurn, alternativeAgentName, hsig, hjira]
      refine ⟨by rw [hres], by rw [hres], ?_, ?_, ?_⟩
      · intro resp hr; exact absurd hr (by simp)
      · intro hr; exact absurd hr (by simp)
      · intro e' _; rw [hres]
    | ok resp =>
      by_cases hcs : resp = CANNOT_HANDLE_SIGNAL
      · subst hcs
        have hres : processTaskAgentTurn jiraOracle confluenceOracle "confluence" message =
            { response := "Lo siento, parece que ni Jira ni Confluence pueden manejar esta solicitud específica."
              activeAgent := "confluence", jiraCalls := [message], confluenceCalls := [message] } := by
          simp [processTaskAgentTurn, alternativeAgentName, hsig, hjira]
        refine ⟨by rw [hres], by rw [hres], ?_, ?_, ?_⟩
        · intro resp' hr hne
          cases hr
          exact absurd rfl hne
        · intro _
          rw [hres]
          exact bothDomainsNamed
        · intro e' hr; exact absurd hr (by simp)
      · have hb : (resp == CANNOT_HANDLE_SIGNAL) = false := by
          simp [hcs]
        have hres : processTaskAgentTurn jiraOracle confluenceOracle "confluence" message =
            { response := resp
              activeAgent := "jira", jiraCalls := [message], confluenceCalls := [message] } := by
          simp [processTaskAgentTurn, alternativeAgentName, hsig, hjira, hb]
        refine ⟨by rw [hres], by rw [hres], ?_, ?_, ?_⟩
        · intro resp' hr _
          cases hr
          exact ⟨by rw [hres], by rw [hres]⟩
        · intro hr
          cases hr
          exact absurd rfl hcs
        · intro e' hr; exact absurd hr (by simp)

/-- Witness for C2's amended theorem: declined by jira, answered by
confluence, with the alternate recorded as active agent and called once
with the same message. -/
theorem reflection_one_hop_behavior_witness :
    (processTaskAgentTurn (fun _ => AgentOutcome.ok CANNOT_HANDLE_SIGNAL)
        (fun _ => AgentOutcome.ok "Listo") "jira" "busca la página").jiraCalls = ["busca la página"] ∧
    (processTaskAgentTurn (fun _ => AgentOutcome.ok CANNOT_HANDLE_SIGNAL)
        (fun _ => AgentOutcome.ok "Listo") "jira" "busca la página").confluenceCalls = ["busca la página"] ∧
    (processTaskAgentTurn (fun _ => AgentOutcome.ok CANNOT_HANDLE_SIGNAL)
        (fun _ => AgentOutcome.ok "Listo") "jira" "busca la página").response = "Listo" ∧
    (processTaskAgentTurn (fun _ => AgentOutcome.ok CANNOT_HANDLE_SIGNAL)
        (fun _ => AgentOutcome.ok "Listo") "jira" "busca la página").activeAgent = "confluence" := by
  have h := (reflection_one_hop_behavior (fun _ => AgentOutcome.ok CANNOT_HANDLE_SIGNAL)
    (fun _ => AgentOutcome.ok "Listo") "busca la página").1 rfl
  exact ⟨h.1, h.2.1, (h.2.2.1 "Listo" rfl (by decide)).1, (h.2.2.1 "Listo" rfl (by decide)).2⟩

/-- C7.  The duration parser maps "1h 30m", "90m" and "1,5h" to 5400
seconds (comma accepted as decimal separator), rejects "0m", and for every
input either errors or returns a positive whole number of minutes
expressed in seconds. -/
theorem parse_duration_values_and_positivity :
    parseTimeStrToSeconds "1h 30m" = some 5400 ∧
    parseTimeStrToSeconds "90m" = some 5400 ∧
    parseTimeStrToSeconds "1,5h" = some 5400 ∧
    parseTimeStrToSeconds "0m" = none ∧
    ∀ s : String, parseTimeStrToSeconds s = none ∨
      ∃ m : Int, 1 ≤ m ∧ parseTimeStrToSeconds s = some (m * 60) := by
  refine ⟨by decide, by decide, by decide, by decide, ?_⟩
  intro s
  unfold parseTimeStrToSeconds
  cases totalMinutesOf (normTime s) with
  | none => exact Or.inl rfl
  | some tm =>
    by_cases h : tm ≤ 0
    · exact Or.inl (by simp [h])
    · exact Or.inr ⟨tm, by omega, by simp [h]⟩

/-- C4 (code bug).  With the collected record complete and the user
confirming, a failed page creation deactivates the incident flow
(`active = false`) even though the response tells the user the data is
still saved and can be retried: the flow does not remain in a
CONFIRMING-equivalent state. -/
theorem incident_page_failure_deactivates_flow :
    (handleIncidentFlow (fun _ => AgentOutcome.ok "Error: no se pudo conectar con Confluence")
        (fun _ => none) TEMPLATE_CONFIG "sí"
        { active := true, current_step := 10,
          collected_data := [("fecha_incidente", FieldValue.str "2024-05-20"),
            ("tipo_incidente", FieldValue.str "Caída de servicio"),
            ("impacto", FieldValue.str "Alto"), ("prioridad", FieldValue.str "Alta"),
            ("estado_actual", FieldValue.str "Pendiente")],
          temp_list_items := [], confirmation_step := true }).2.active = false ∧
    strContains
      (handleIncidentFlow (fun _ => AgentOutcome.ok "Error: no se pudo conectar con Confluence")
        (fun _ => none) TEMPLATE_CONFIG "sí"
        { active := true, current_step := 10,
          collected_data := [("fecha_incidente", FieldValue.str "2024-05-20"),
            ("tipo_incidente", FieldValue.str "Caída de servicio"),
            ("impacto", FieldValue.str "Alto"), ("prioridad", FieldValue.str "Alta"),
            ("estado_actual", FieldValue.str "Pendiente")],
          temp_list_items := [], confirmation_step := true }).1
      "Los datos del incidente siguen guardados" = true := by
  constructor
  · decide
  · decide

/-- The `"<weekday> pasado"` computation returns the most recent strictly
past day with the target weekday, a full week back when today already is
that weekday. -/
theorem pastWeekday_spec (today t : Int) (ht0 : 0 ≤ t) (ht6 : t < 7) :
    pastWeekday today t < today ∧
    weekdayOf (pastWeekday today t) = t ∧
    (∀ d, pastWeekday today t < d → d < today → weekdayOf d ≠ t) ∧
    (weekdayOf today = t → pastWeekday today t = today - 7) := by
  unfold pastWeekday weekdayOf
  simp only [beq_iff_eq]
  refine ⟨?_, ?_, ?_, ?_⟩
  · split_ifs with h <;> omega
  · split_ifs with h <;> omega
  · intro d h1 h2 hcon
    revert h1 h2
    split_ifs with h <;> (intro h1 h2; omega)
  · intro hw
    split_ifs with h <;> omega

/-- C8.  With reference 2024-05-20 (a Monday), "ayer" parses to
2024-05-19 and "lunes pasado" to 2024-05-13; in general, for every
weekday name in the parser's vocabulary and every reference date,
"<weekday> pasado" parses to the most recent strictly-past occurrence of
that weekday, which is exactly seven days back whenever the reference
itself falls on that weekday. -/
theorem relative_date_parsing :
    (∀ f, parseDateDescriptionToDateObj f (daysFromCivil 2024 5 20) "ayer"
      = some (daysFromCivil 2024 5 19)) ∧
    (∀ f, parseDateDescriptionToDateObj f (daysFromCivil 2024 5 20) "lunes pasado"
      = some (daysFromCivil 2024 5 13)) ∧
    (∀ (f : String → Option Int) (today : Int) (name : String) (t : Int),
      (name, t) ∈ weekdayNamesList →
        parseDateDescriptionToDateObj f today (name ++ " pasado") = some (pastWeekday today t) ∧
        (pastWeekday today t < today ∧
         weekdayOf (pastWeekday today t) = t ∧
         (∀ d, pastWeekday today t < d → d < today → weekdayOf d ≠ t) ∧
         (weekdayOf today = t → pastWeekday today t = today - 7))) := by
  refine ⟨fun f => rfl, fun f => rfl, ?_⟩
  intro f today name t hmem
  fin_cases hmem <;>
    exact ⟨rfl, pastWeekday_spec today _ (by decide) (by decide)⟩

/-- Witness for C8 at a concrete weekday and reference date. -/
theorem relative_date_parsing_witness :
    parseDateDescriptionToDateObj (fun _ => none) (daysFromCivil 2024 5 20) "martes pasado"
      = some (pastWeekday (daysFromCivil 2024 5 20) 1) ∧
    pastWeekday (daysFromCivil 2024 5 20) 1 < daysFromCivil 2024 5 20 :=
  ⟨(relative_date_parsing.2.2 (fun _ => none) (daysFromCivil 2024 5 20) "martes" 1
      (by decide)).1,
   (relative_date_parsing.2.2 (fun _ => none) (daysFromCivil 2024 5 20) "martes" 1
      (by decide)).2.1⟩

/-- C9.  For a single-choice question, a reply matching none of the
options (neither exactly nor by case-insensitive substring in either
direction) leaves the whole flow state unchanged — in particular
`current_step` and every collected slot — and the returned response is
the re-prompt that re-emits the same option list. -/
theorem unrecognized_choice_answer_reprompts
    (confluenceOracle : AgentOracle) (parseDateF : String → Option String)
    (templateConfig : List QuestionConfig) (message : String) (flow : IncidentFlowData)
    (q : QuestionConfig)
    (hcancel : cancelKeywords.contains (strLower message) = false)
    (hconf : flow.confirmation_step = false)
    (hq : templateConfig[flow.current_step]? = some q)
    (htype : q.qtype = "choice")
    (hexact : (q.options.getD []).contains message = false)
    (hsub : (q.options.getD []).find? (fun option =>
        strContains (strLower message) (strLower option)
          || strContains (strLower option) (strLower message)) = none) :
    handleIncidentFlow confluenceOracle parseDateF templateConfig message flow =
      ("Tu respuesta '" ++ message
        ++ "' no coincide con ninguna de las opciones disponibles. "
        ++ "Por favor, elige una de las siguientes opciones:\n"
        ++ optionsText (q.options.getD []), flow) := by
  have hlt : flow.current_step < templateConfig.length := by
    by_contra hge
    rw [List.getElem?_eq_none (by omega)] at hq
    cases hq
  have hget : templateConfig.get ⟨flow.current_step, hlt⟩ = q := by
    have h2 : templateConfig[flow.current_step]? = some (templateConfig.get ⟨flow.current_step, hlt⟩) := by
      simp [List.getElem?_eq_getElem hlt]
    rw [h2] at hq
    exact Option.some_inj.mp hq
  have e1 : (q.qtype == "text") = false := by rw [htype]; rfl
  have e2 : (q.qtype == "multiline_text") = false := by rw [htype]; rfl
  have e3 : (q.qtype == "choice") = true := by rw [htype]; rfl
  unfold handleIncidentFlow
  rw [if_neg (show ¬(cancelKeywords.contains (strLower message) = true) by
    rw [hcancel]; exact Bool.false_ne_true)]
  rw [if_neg (show ¬(flow.confirmation_step = true) by
    rw [hconf]; exact Bool.false_ne_true)]
  rw [dif_pos hlt, hget]
  simp only [e1, e2, e3, Bool.or_self, Bool.false_eq_true, if_false, if_true, hexact, hsub]

/-- Witness for C9 on the real template: answering the `impacto` choice
question with "Muy grave" re-prompts with the same options and leaves the
flow unchanged. -/
theorem unrecognized_choice_answer_reprompts_witness :
    handleIncidentFlow (fun _ => AgentOutcome.raised "e") (fun _ => none) TEMPLATE_CONFIG
      "Muy grave"
      { active := true, current_step := 1,
        collected_data := [("fecha_incidente", FieldValue.str "2024-05-20"),
          ("tipo_incidente", FieldValue.str "Caída de servicio")],
        temp_list_items := [], confirmation_step := false } =
      ("Tu respuesta 'Muy grave' no coincide con ninguna de las opciones disponibles. "
        ++ "Por favor, elige una de las siguientes opciones:\n"
        ++ optionsText ["Alto", "Medio", "Bajo"],
       { active := true, current_step := 1,
         collected_data := [("fecha_incidente", FieldValue.str "2024-05-20"),
           ("tipo_incidente", FieldValue.str "Caída de servicio")],
         temp_list_items := [], confirmation_step := false }) :=
  unrecognized_choice_answer_reprompts (fun _ => AgentOutcome.raised "e") (fun _ => none)
    TEMPLATE_CONFIG "Muy grave" _
    { key := "impacto", question := "Excelente. ¿Cuál fue el Impacto?", qtype := "choice",
      options := some ["Alto", "Medio", "Bajo"] }
    (by decide) rfl (by decide) rfl (by decide) (by decide)

/-- If the reference mentions neither a filtered title nor sprint, the
explicit-filtered-request loop finds nothing. -/
theorem filteredTitleLookup_none (lastResults : List ConfluencePage) (refLower : String)
    (titles : List String)
    (htitles : ∀ t ∈ titles, strContains refLower (strLower t) = false)
    (hsprint : strContains refLower "sprint" = false) :
    filteredTitleLookup lastResults refLower titles = none := by
  induction titles with
  | nil => rfl
  | cons t rest ih =>
    have h1 := htitles t (List.mem_cons_self t rest)
    simp only [filteredTitleLookup, h1, hsprint, Bool.false_and, Bool.or_false,
      Bool.false_eq_true, if_false]
    exact ih (fun t' ht' => htitles t' (List.mem_cons_of_mem _ ht'))

/-- Filtering a relevant-then-filtered list for relevance recovers the
relevant prefix. -/
theorem filter_relevant_append (rel filt : List ConfluencePage)
    (hrel : ∀ p ∈ rel, p.is_relevant = true)
    (hfilt : ∀ p ∈ filt, p.is_relevant = false) :
    (rel ++ filt).filter (fun r => r.is_relevant) = rel := by
  rw [List.filter_append]
  have h1 : rel.filter (fun r => r.is_relevant) = rel :=
    List.filter_eq_self.mpr hrel
  have h2 : filt.filter (fun r => r.is_relevant) = [] := by
    rw [List.filter_eq_nil_iff]
    intro p hp
    simp [hfilt p hp]
  rw [h1, h2, List.append_nil]

/-- C6.  When the reference carries a numeric option N (and triggers no
earlier resolution rule), the resolver returns the N-th item of the
relevant subset whenever 1 ≤ N ≤ |relevant|, and otherwise falls back to
1-based indexing into the full stored list (relevant followed by
filtered, as smart search stores it). -/
theorem numeric_reference_prefers_relevant_subset
    (rel filt : List ConfluencePage) (filteredTitles : List String) (irrelevantCount : Nat)
    (reference : String) (n : Nat)
    (hrel : ∀ p ∈ rel, p.is_relevant = true)
    (hfilt : ∀ p ∈ filt, p.is_relevant = false)
    (hne : rel ++ filt ≠ [])
    (hnum : findOptionNumConfluence (strLower reference) = some n)
    (htitles : ∀ t ∈ filteredTitles, strContains (strLower reference) (strLower t) = false)
    (hsprint : strContains (strLower reference) "sprint" = false)
    (hord : ordinalScan (strLower reference) = none)
    (hotra : strContains (strLower reference) "otra" = false)
    (hnorel : strContains (strLower reference) "no relevante" = false)
    (hfiltr : strContains (strLower reference) "filtrada" = false) :
    (∀ p, rel[n - 1]? = some p → 1 ≤ n →
      getPageByReference (rel ++ filt) filteredTitles irrelevantCount reference
        = PageRefResult.success p none) ∧
    (rel.length < n → ∀ p, (rel ++ filt)[n - 1]? = some p →
      getPageByReference (rel ++ filt) filteredTitles irrelevantCount reference
        = PageRefResult.success p (some (!p.is_relevant))) := by
  have hempty : ((rel ++ filt).isEmpty = true) = False := by
    simp [List.isEmpty_iff, hne]
  have hfil := filter_relevant_append rel filt hrel hfilt
  constructor
  · intro p hp h1
    have hlt : n - 1 < rel.length := (List.getElem?_eq_some.mp hp).1
    have hgetp : rel[n - 1] = p := (List.getElem?_eq_some.mp hp).2
    unfold getPageByReference
    simp only [hempty, if_false,
      filteredTitleLookup_none _ _ _ htitles hsprint, hnum, hord, hotra, hnorel, hfiltr,
      hsprint, Bool.false_and, Bool.or_false, Bool.false_eq_true, if_false]
    rw [dif_pos ⟨h1,
      (show n ≤ ((rel ++ filt).filter (fun r => r.is_relevant)).length by rw [hfil]; omega)⟩]
    simp only [hfil, List.get_eq_getElem, hgetp]
  · intro hgt p hp
    have hlt : n - 1 < (rel ++ filt).length := (List.getElem?_eq_some.mp hp).1
    have hgetp : (rel ++ filt)[n - 1] = p := (List.getElem?_eq_some.mp hp).2
    unfold getPageByReference
    simp only [hempty, if_false,
      filteredTitleLookup_none _ _ _ htitles hsprint, hnum, hord, hotra, hnorel, hfiltr,
      hsprint, Bool.false_and, Bool.or_false, Bool.false_eq_true, if_false]
    rw [dif_neg (show ¬(1 ≤ n ∧ n ≤ ((rel ++ filt).filter (fun r => r.is_relevant)).length) by
      rw [hfil]; omega)]
    rw [dif_pos ⟨by omega, by omega⟩]
    simp only [List.get_eq_getElem, hgetp]

/-- Witness for C6: "opción 2" after a smart search with three relevant
and one filtered result selects the second relevant page. -/
theorem numeric_reference_prefers_relevant_subset_witness :
    getPageByReference
      [⟨"1", "Guía de despliegue", true⟩, ⟨"2", "Manual de usuario", true⟩,
       ⟨"3", "Notas de arquitectura", true⟩, ⟨"4", "Sprint Goal 12", false⟩]
      ["Sprint Goal 12"] 1 "opción 2"
      = PageRefResult.success ⟨"2", "Manual de usuario", true⟩ none :=
  (numeric_reference_prefers_relevant_subset
    [⟨"1", "Guía de despliegue", true⟩, ⟨"2", "Manual de usuario", true⟩,
     ⟨"3", "Notas de arquitectura", true⟩]
    [⟨"4", "Sprint Goal 12", false⟩]
    ["Sprint Goal 12"] 1 "opción 2" 2
    (by decide) (by decide) (by decide) (by decide) (by decide) (by decide)
    (by decide) (by decide) (by decide) (by decide)).1
    ⟨"2", "Manual de usuario", true⟩ (by decide) (by decide)

/-- A digit character is not regex whitespace. -/
theorem isPySpace_of_isDigit (c : Char) (h : c.isDigit = true) : isPySpace c = false := by
  cases hsp : isPySpace c
  · rfl
  · exfalso
    unfold isPySpace at hsp
    simp only [Bool.or_eq_true, beq_iff_eq] at hsp
    rcases hsp with ((((rfl | rfl) | rfl) | rfl) | rfl) | rfl <;> exact absurd h (by decide)

/-- With the keyword group optional, a digit at the head of the input
makes the per-position matcher succeed. -/
theorem tryKeywordNumAt_isSome_of_digit (keywords : List (List Char)) (c : Char)
    (rest : List Char) (hc : c.isDigit = true) :
    (tryKeywordNumAt keywords true (c :: rest)).isSome = true := by
  unfold tryKeywordNumAt
  cases hf : keywords.find? (fun k =>
      listPrefixEq k (c :: rest)
        && !(takeDigits (skipPySpaces ((c :: rest).drop k.length))).1.isEmpty) with
  | some k => simp
  | none =>
    have hs : isPySpace c = false := isPySpace_of_isDigit c hc
    have h1 : skipPySpaces (c :: rest) = c :: rest := by
      unfold skipPySpaces
      rw [List.dropWhile_cons]
      simp [hs]
    have h2 : (takeDigits (c :: rest)).1.isEmpty = false := by
      unfold takeDigits
      rw [if_pos hc]
      simp
    simp only [if_true, h1, h2, Bool.false_eq_true, if_false, Option.isSome_some]

/-- The Jira option scan finds a number whenever the text contains any
digit. -/
theorem findOptionNumJira_isSome_of_digit :
    ∀ l : List Char, l.any Char.isDigit = true →
      (scanKeywordNum (jiraOptionKeywords.map String.toList) true l).isSome = true := by
  intro l
  induction l with
  | nil => intro h; cases h
  | cons c rest ih =>
    intro h
    unfold scanKeywordNum
    cases htry : tryKeywordNumAt (jiraOptionKeywords.map String.toList) true (c :: rest) with
    | some v => simp
    | none =>
      by_cases hc : c.isDigit = true
      · have := tryKeywordNumAt_isSome_of_digit (jiraOptionKeywords.map String.toList) c rest hc
        rw [htry] at this
        cases this
      · have hrest : rest.any Char.isDigit = true := by
          simp only [List.any_cons, Bool.or_eq_true] at h
          rcases h with h' | h'
          · exact absurd h' hc
          · exact h'
        exact ih hrest

/-- C10.  Any digit sequence in the reference is read as a 1-based option
number (the keyword prefix is optional); when that number is out of range
the resolver fails with the not-found error without ever trying the
first/last/substring rules — even if the reference exactly matches an
issue key. -/
theorem digit_reference_out_of_range_not_found
    (lastResults : List JiraIssue) (reference : String) (n : Nat)
    (hne : lastResults ≠ [])
    (hnum : findOptionNumJira (strLower reference) = some n)
    (hrange : ¬(1 ≤ n ∧ n ≤ lastResults.length)) :
    getIssueByReference lastResults reference =
      IssueRefResult.failure
        ("No se pudo identificar una issue con la referencia '" ++ reference ++ "'") ∧
    ∀ s : String, s.toList.any Char.isDigit = true → (findOptionNumJira s).isSome = true := by
  constructor
  · have hempty : (lastResults.isEmpty = true) = False := by
      simp [List.isEmpty_iff, hne]
    have hcond : (1 ≤ n && n ≤ lastResults.length) = false := by
      rcases Nat.lt_or_ge n 1 with h | h
      · simp [Nat.not_le.mpr h]
      · have h2 : ¬(n ≤ lastResults.length) := fun hle => hrange ⟨h, hle⟩
        simp [h2]
    unfold getIssueByReference
    simp only [hempty, if_false, hnum, hcond, Bool.false_eq_true, if_false]
  · intro s hs
    exact findOptionNumJira_isSome_of_digit s.toList hs

/-- Witness for C10: "PSIMDESASW-123" with three stored results is read
as option 123, which is out of range, so the resolver fails even though
the third result's key is exactly that text. -/
theorem digit_reference_out_of_range_not_found_witness :
    getIssueByReference
      [⟨"PSIMDESASW-1", "Arreglar login"⟩, ⟨"PSIMDESASW-2", "Actualizar librería"⟩,
       ⟨"PSIMDESASW-123", "Migrar base de datos"⟩] "PSIMDESASW-123" =
      IssueRefResult.failure
        "No se pudo identificar una issue con la referencia 'PSIMDESASW-123'" :=
  (digit_reference_out_of_range_not_found
    [⟨"PSIMDESASW-1", "Arreglar login"⟩, ⟨"PSIMDESASW-2", "Actualizar librería"⟩,
     ⟨"PSIMDESASW-123", "Migrar base de datos"⟩] "PSIMDESASW-123" 123
    (by decide) (by decide) (by decide)).1

end AgentSpec
